import Mathlib

/-!
Formal model of the vArmor policy reconciliation controller
(`internal/policy/policy_controller.go` and the logic-identical
cluster-scoped variant).  The controller's pure decision logic is
embedded as executable Lean functions; the resource store, the external
profile generator and the status-manager channels are modelled as
explicit environment inputs and effect traces.
-/

namespace Varmor

/-- Enforcement mode of a policy (`varmortypes.VarmorPolicyMode`);
`DefenseInDepth` is the behavior-modeling mode. -/
inductive VarmorPolicyMode where
  | AlwaysAllow
  | RuntimeDefault
  | EnhanceProtect
  | DefenseInDepth
deriving DecidableEq

/-- Phase of a policy (`varmortypes` phase constants); `Unchanged` is the
sentinel value meaning "leave the phase as it is". -/
inductive VarmorPolicyPhase where
  | Pending
  | Modeling
  | Completed
  | Protecting
  | Error
  | Unchanged
deriving DecidableEq

/-- Condition types written on a policy's status
(`varmortypes.VarmorPolicyCreated` / `VarmorPolicyUpdated` / `VarmorPolicyReady`). -/
inductive VarmorPolicyConditionType where
  | Created
  | Updated
  | Ready
deriving DecidableEq

/-- Condition status (`apicorev1.ConditionStatus`). -/
inductive ConditionStatus where
  | ConditionTrue
  | ConditionFalse
  | ConditionUnknown
deriving DecidableEq

/-- Label selector of a workload target (abstracted to its match labels). -/
structure LabelSelector where
  matchLabels : List (String × String)
deriving DecidableEq

/-- Workload target of a policy (`Spec.Target`). -/
structure Target where
  kind : String
  name : String
  selector : Option LabelSelector
deriving DecidableEq

/-- Parameters of the DefenseInDepth (behavior-modeling) mode
(`Spec.Policy.DefenseInDepth`). -/
structure DefenseInDepth where
  modelingDuration : Int
deriving DecidableEq

/-- The `Spec.Policy` part of a policy: mode, enforcer identifier,
mode-specific parameters.  `rules` abstracts the remaining rule fields,
which are consumed only by the external profile generator. -/
structure Policy where
  enforcer : String
  mode : VarmorPolicyMode
  defenseInDepth : DefenseInDepth
  rules : String
deriving DecidableEq

/-- Spec of a VarmorPolicy object. -/
structure VarmorPolicySpec where
  target : Target
  policy : Policy
deriving DecidableEq

/-- One entry of a policy's ordered condition list
(`varmor.VarmorPolicyCondition`); time is modelled as a natural number. -/
structure VarmorPolicyCondition where
  type : VarmorPolicyConditionType
  status : ConditionStatus
  lastTransitionTime : Nat
  reason : String
  message : String
deriving DecidableEq

/-- Status subtree of a VarmorPolicy object. -/
structure VarmorPolicyStatus where
  profileName : String
  conditions : List VarmorPolicyCondition
  ready : Bool
  phase : VarmorPolicyPhase
deriving DecidableEq

/-- A VarmorPolicy object; `ns` is the object's namespace. -/
structure VarmorPolicy where
  ns : String
  name : String
  resourceVersion : String
  spec : VarmorPolicySpec
  status : VarmorPolicyStatus
deriving DecidableEq

/-- Compiled enforcement profile content (`ArmorProfile Spec.Profile`);
`content` abstracts the compiled rule payload. -/
structure Profile where
  name : String
  enforcer : String
  content : String
deriving DecidableEq

/-- Behavior-modeling bookkeeping of a profile (`Spec.BehaviorModeling`). -/
structure BehaviorModeling where
  modelingDuration : Int
  uniqueID : String
deriving DecidableEq

/-- Spec of an ArmorProfile object. -/
structure ArmorProfileSpec where
  target : Target
  profile : Profile
  behaviorModeling : BehaviorModeling
deriving DecidableEq

/-- Status subtree of an ArmorProfile object; its condition entries are
abstracted to strings (the controller only ever resets them to nil). -/
structure ArmorProfileStatus where
  currentNumberLoaded : Nat
  conditions : List String
deriving DecidableEq

/-- An ArmorProfile object. -/
structure ArmorProfile where
  ns : String
  name : String
  spec : ArmorProfileSpec
  status : ArmorProfileStatus
deriving DecidableEq

/-- Retry ceiling of the worker loop (`maxRetries` constant). -/
def maxRetries : Nat := 5

/-- Event Router update decision (`updateVarmorPolicy`, lines 127-141, and
the identical `updateVarmorClusterPolicy`): returns `true` exactly when the
notification is enqueued.  The code skips ("nothing need to be updated")
when the resource version is unchanged, or the spec is deep-equal, or the
status is NOT deep-equal; otherwise it enqueues. -/
def updateVarmorPolicy (oldVp newVp : VarmorPolicy) : Bool :=
  if newVp.resourceVersion = oldVp.resourceVersion ∨
      newVp.spec = oldVp.spec ∨
      ¬(newVp.status = oldVp.status) then
    false
  else
    true

/-- The in-place update loop of `updateVarmorPolicyStatus` (lines 193-202):
walk the condition list, overwrite the status/time/reason/message of the
first condition whose type is `Updated`, and report whether one was found. -/
def setUpdatedCondition (conds : List VarmorPolicyCondition) (status : ConditionStatus)
    (now : Nat) (reason message : String) : List VarmorPolicyCondition × Bool :=
  match conds with
  | [] => ([], false)
  | c :: rest =>
    if c.type = VarmorPolicyConditionType.Updated then
      ({ c with status := status, lastTransitionTime := now,
                reason := reason, message := message } :: rest, true)
    else
      let t := setUpdatedCondition rest status now reason message
      (c :: t.1, t.2)

/-- Condition bookkeeping of `updateVarmorPolicyStatus` (lines 189-214):
only for the `Updated` condition type is an existing entry overwritten in
place; in every other case (other type, or no `Updated` entry present) a
fresh condition is appended. -/
def upsertCondition (conds : List VarmorPolicyCondition)
    (condType : VarmorPolicyConditionType) (status : ConditionStatus)
    (now : Nat) (reason message : String) : List VarmorPolicyCondition :=
  let found :=
    if condType = VarmorPolicyConditionType.Updated then
      setUpdatedCondition conds status now reason message
    else
      (conds, false)
  if found.2 then found.1
  else found.1 ++ [⟨condType, status, now, reason, message⟩]

/-- Object mutation performed by `updateVarmorPolicyStatus` (lines 186-225)
before the store call: upsert the condition, then set `profileName` when
non-empty, reset `ready` when requested, and overwrite `phase` unless the
`Unchanged` sentinel was passed. -/
def updateVarmorPolicyStatusObj (vp : VarmorPolicy) (profileName : String)
    (resetReady : Bool) (phase : VarmorPolicyPhase)
    (condType : VarmorPolicyConditionType) (status : ConditionStatus)
    (reason message : String) (now : Nat) : VarmorPolicy :=
  let st0 := { vp.status with
    conditions := upsertCondition vp.status.conditions condType status now reason message }
  let st1 := if profileName ≠ "" then { st0 with profileName := profileName } else st0
  let st2 := if resetReady then { st1 with ready := false } else st1
  let st3 := if phase ≠ VarmorPolicyPhase.Unchanged then { st2 with phase := phase } else st2
  { vp with status := st3 }

/-- Status Reporter `updateVarmorPolicyStatus` (lines 186-229, and the
identical `updateVarmorClusterPolicyStatus`): mutate the policy's status
and issue a status-only store update whose outcome `storeErr` (the
environment's response) is returned unchanged to the caller. -/
def updateVarmorPolicyStatus (vp : VarmorPolicy) (profileName : String)
    (resetReady : Bool) (phase : VarmorPolicyPhase)
    (condType : VarmorPolicyConditionType) (status : ConditionStatus)
    (reason message : String) (now : Nat) (storeErr : Option String) :
    VarmorPolicy × Option String :=
  (updateVarmorPolicyStatusObj vp profileName resetReady phase condType status reason message now,
   storeErr)

/-- Result of the update validation gate `ignoreUpdate`: whether to stop
processing, the error the gate returns (the status-write store outcome in
the rejection branches), the policy object after any status mutation, and
the number of status-store writes it performed. -/
structure IgnoreUpdateResult where
  ignore : Bool
  err : Option String
  vp : VarmorPolicy
  statusWrites : Nat
deriving DecidableEq

/-- Update Validation Gate `ignoreUpdate` (lines 373-436, and the identical
cluster-scoped variant): six checks evaluated in order, first match wins.
Every rejecting check writes an `Updated`/`ConditionFalse`/"Forbidden"
condition through the status reporter and returns the store outcome of that
write; the no-op-duration check returns silently without any write. -/
def ignoreUpdate (newVp : VarmorPolicy) (oldAp : ArmorProfile) (now : Nat)
    (storeErr : Option String) : IgnoreUpdateResult :=
  -- Disallow modify the target of VarmorPolicy.
  if ¬(newVp.spec.target = oldAp.spec.target) then
    let w := updateVarmorPolicyStatus newVp "" true VarmorPolicyPhase.Unchanged
      VarmorPolicyConditionType.Updated ConditionStatus.ConditionFalse "Forbidden"
      "Modify the target of VarmorPolicy is not allowed. You need to recreate the VarmorPolicy object."
      now storeErr
    { ignore := true, err := w.2, vp := w.1, statusWrites := 1 }
  -- Disallow switch mode from others to DefenseInDepth.
  else if newVp.spec.policy.mode = VarmorPolicyMode.DefenseInDepth ∧
      oldAp.spec.behaviorModeling.modelingDuration = 0 then
    let w := updateVarmorPolicyStatus newVp "" true VarmorPolicyPhase.Unchanged
      VarmorPolicyConditionType.Updated ConditionStatus.ConditionFalse "Forbidden"
      "Switch the mode from others to DefenseInDepth is not allowed. You need to recreate the VarmorPolicy object."
      now storeErr
    { ignore := true, err := w.2, vp := w.1, statusWrites := 1 }
  -- Disallow switch mode from DefenseInDepth to others.
  else if ¬(newVp.spec.policy.mode = VarmorPolicyMode.DefenseInDepth) ∧
      ¬(oldAp.spec.behaviorModeling.modelingDuration = 0) then
    let w := updateVarmorPolicyStatus newVp "" true VarmorPolicyPhase.Unchanged
      VarmorPolicyConditionType.Updated ConditionStatus.ConditionFalse "Forbidden"
      "Switch the mode from DefenseInDepth to others is not allowed. You need to recreate the VarmorPolicy object."
      now storeErr
    { ignore := true, err := w.2, vp := w.1, statusWrites := 1 }
  -- Disallow modify the VarmorPolicy that run as DefenseInDepth mode and already completed.
  else if newVp.spec.policy.mode = VarmorPolicyMode.DefenseInDepth ∧
      (newVp.status.phase = VarmorPolicyPhase.Completed ∨
       newVp.status.phase = VarmorPolicyPhase.Protecting) then
    let w := updateVarmorPolicyStatus newVp "" false VarmorPolicyPhase.Unchanged
      VarmorPolicyConditionType.Updated ConditionStatus.ConditionFalse "Forbidden"
      "Modify the VarmorPolicy that run as DefenseInDepth mode and already completed is not allowed. You need to recreate the VarmorPolicy object."
      now storeErr
    { ignore := true, err := w.2, vp := w.1, statusWrites := 1 }
  -- Nothing need to be updated if VarmorPolicy is in the modeling phase and its duration is not changed.
  else if newVp.spec.policy.mode = VarmorPolicyMode.DefenseInDepth ∧
      newVp.status.phase = VarmorPolicyPhase.Modeling ∧
      newVp.spec.policy.defenseInDepth.modelingDuration =
        oldAp.spec.behaviorModeling.modelingDuration then
    { ignore := true, err := none, vp := newVp, statusWrites := 0 }
  -- Disallow switch the enforcer.
  else if ¬(newVp.spec.policy.enforcer = oldAp.spec.profile.enforcer) then
    let w := updateVarmorPolicyStatus newVp "" true VarmorPolicyPhase.Unchanged
      VarmorPolicyConditionType.Updated ConditionStatus.ConditionFalse "Forbidden"
      "Switch the enforcer is not allowed. You need to recreate the VarmorPolicy object."
      now storeErr
    { ignore := true, err := w.2, vp := w.1, statusWrites := 1 }
  else
    { ignore := false, err := none, vp := newVp, statusWrites := 0 }

/-- Modelled from the spec: the external name deriver
`varmorprofile.GenerateArmorProfileName` of `internal/profile` is not part
of the sources here; per the spec it is a deterministic derivation from
namespace, name and cluster-scope flag, checked against a 63-character
ceiling by the callers. -/
def generateArmorProfileName (ns name : String) (clusterScope : Bool) : String :=
  if clusterScope then "varmor-cluster-" ++ name else "varmor-" ++ ns ++ "-" ++ name

/-- Modelled from the spec: the profile-name template
`varmorprofile.ProfileNameTemplate` of `internal/profile` is not part of
the sources here; only its length enters the length-budget message of the
create validation gate. -/
def profileNameTemplate : String := "varmor-%s-%s"

/-- Result of the create validation gate `ignoreAdd`: whether to stop
processing, the policy object after any status mutation, and the number of
status-store writes it performed (their store outcome is only logged by the
code, never returned). -/
structure IgnoreAddResult where
  ignore : Bool
  vp : VarmorPolicy
  statusWrites : Nat
deriving DecidableEq

/-- Create Validation Gate `ignoreAdd` (lines 246-312): five checks in
order; each rejection writes an `Error` phase, `Created` type,
`ConditionFalse`, "Forbidden" condition and stops, ignoring the store
outcome of that write. -/
def ignoreAdd (vp : VarmorPolicy) (enableDefenseInDepth : Bool) (now : Nat) :
    IgnoreAddResult :=
  if ¬(vp.spec.target.kind = "Deployment") ∧ ¬(vp.spec.target.kind = "StatefulSet") ∧
      ¬(vp.spec.target.kind = "DaemonSet") ∧ ¬(vp.spec.target.kind = "Pod") then
    { ignore := true,
      vp := updateVarmorPolicyStatusObj vp "" true VarmorPolicyPhase.Error
        VarmorPolicyConditionType.Created ConditionStatus.ConditionFalse "Forbidden"
        "This kind of target is not supported." now,
      statusWrites := 1 }
  else if vp.spec.target.name = "" ∧ vp.spec.target.selector = none then
    { ignore := true,
      vp := updateVarmorPolicyStatusObj vp "" true VarmorPolicyPhase.Error
        VarmorPolicyConditionType.Created ConditionStatus.ConditionFalse "Forbidden"
        "You should specify the target workload by name or selector." now,
      statusWrites := 1 }
  else if ¬(vp.spec.target.name = "") ∧ ¬(vp.spec.target.selector = none) then
    { ignore := true,
      vp := updateVarmorPolicyStatusObj vp "" true VarmorPolicyPhase.Error
        VarmorPolicyConditionType.Created ConditionStatus.ConditionFalse "Forbidden"
        "You shouldn't specify the target workload by both both name and selector." now,
      statusWrites := 1 }
  else if ¬enableDefenseInDepth ∧ vp.spec.policy.mode = VarmorPolicyMode.DefenseInDepth then
    { ignore := true,
      vp := updateVarmorPolicyStatusObj vp "" true VarmorPolicyPhase.Error
        VarmorPolicyConditionType.Created ConditionStatus.ConditionFalse "Forbidden"
        "The DefenseInDepth feature is not enabled." now,
      statusWrites := 1 }
  else if 63 < (generateArmorProfileName vp.ns vp.name false).length then
    { ignore := true,
      vp := updateVarmorPolicyStatusObj vp "" true VarmorPolicyPhase.Error
        VarmorPolicyConditionType.Created ConditionStatus.ConditionFalse "Forbidden"
        ("The length of VarmorProfile object name is too long, please limit it to " ++
          toString (63 - profileNameTemplate.length + 4 - vp.ns.length) ++ " bytes") now,
      statusWrites := 1 }
  else
    { ignore := false, vp := vp, statusWrites := 0 }

/-- Observable side effects of the synchronizer handlers: store writes,
status-manager channel sends, and the asynchronous workload-restart
trigger. -/
inductive Effect where
  | policyStatusWrite
  | apStatusWrite
  | apSpecWrite
  | apCreate
  | apmStatusReset
  | resetCh (key : String)
  | updateStatusCh (key : String)
  | deleteCh (key : String)
  | restartWorkloads
deriving DecidableEq

/-- The recompiled ArmorProfile spec built by `handleUpdateVarmorPolicy`
(lines 459-475): deep-copy the old spec, replace its `profile` by the
generator's output, and in DefenseInDepth mode propagate the policy's
modeling duration. -/
def newApSpecOf (newVp : VarmorPolicy) (oldAp : ArmorProfile) (newProfile : Profile) :
    ArmorProfileSpec :=
  let s := { oldAp.spec with profile := newProfile }
  if newVp.spec.policy.mode = VarmorPolicyMode.DefenseInDepth then
    { s with behaviorModeling :=
        { s.behaviorModeling with
          modelingDuration := newVp.spec.policy.defenseInDepth.modelingDuration } }
  else
    s

/-- Environment of one run of `handleUpdateVarmorPolicy`: the clock, the
store's response to each status write it may issue, and the outcome of the
external `GenerateProfile` call. -/
structure UpdateEnv where
  now : Nat
  ignoreStatusErr : Option String
  resetStatusErr : Option String
  genProfile : Except String Profile
  genFailStatusErr : Option String
  apStatusErr : Option String
  apUpdateErr : Option String

/-- Result of one run of `handleUpdateVarmorPolicy`: the error the handler
returns, the policy object after status mutations, the stored ArmorProfile
after any successful store write, whether the status manager's
desired-count flag was marked stale, and the trace of effects. -/
structure UpdateResult where
  err : Option String
  vp : VarmorPolicy
  ap : ArmorProfile
  updateDesiredNumber : Bool
  effects : List Effect
deriving DecidableEq

/-- Profile Synchronizer update path `handleUpdateVarmorPolicy`
(lines 438-515, and the cluster-scoped variant, which differs only in not
propagating the modeling duration): consult the gate, reset the policy
status (`Pending`/`Updated`/true), recompile the profile spec, and either
rebuild (profile status reset, optional model-status reset, reset-channel
send, profile spec write) when the recompiled spec differs, or send a
status-refresh request when it is deep-equal. -/
def handleUpdateVarmorPolicy (newVp : VarmorPolicy) (oldAp : ArmorProfile)
    (env : UpdateEnv) : UpdateResult :=
  let ir := ignoreUpdate newVp oldAp env.now env.ignoreStatusErr
  if ir.ignore then
    { err := ir.err, vp := ir.vp, ap := oldAp, updateDesiredNumber := false,
      effects := if ir.statusWrites = 1 then [Effect.policyStatusWrite] else [] }
  else
    -- First, reset VarmorPolicy/status (updated=true).
    let vp1 := updateVarmorPolicyStatusObj newVp "" true VarmorPolicyPhase.Pending
      VarmorPolicyConditionType.Updated ConditionStatus.ConditionTrue "" "" env.now
    match env.resetStatusErr with
    | some e =>
      { err := some e, vp := vp1, ap := oldAp, updateDesiredNumber := false,
        effects := [Effect.policyStatusWrite] }
    | none =>
      -- Second, build a new ArmorProfileSpec.
      match env.genProfile with
      | Except.error msg =>
        let vp2 := updateVarmorPolicyStatusObj vp1 "" true VarmorPolicyPhase.Error
          VarmorPolicyConditionType.Created ConditionStatus.ConditionFalse "Error" msg env.now
        { err := env.genFailStatusErr, vp := vp2, ap := oldAp, updateDesiredNumber := false,
          effects := [Effect.policyStatusWrite, Effect.policyStatusWrite] }
      | Except.ok newProfile =>
        let newApSpec := newApSpecOf newVp oldAp newProfile
        -- Last, do update.
        let statusKey := newVp.ns ++ "/" ++ newVp.name
        if ¬(oldAp.spec = newApSpec) then
          match env.apStatusErr with
          | some e =>
            { err := some e, vp := vp1, ap := oldAp, updateDesiredNumber := true,
              effects := [Effect.policyStatusWrite, Effect.apStatusWrite] }
          | none =>
            let ap1 := { oldAp with status := { currentNumberLoaded := 0, conditions := [] } }
            let apmEffects :=
              if newVp.spec.policy.mode = VarmorPolicyMode.DefenseInDepth then
                [Effect.apmStatusReset]
              else
                []
            match env.apUpdateErr with
            | some e =>
              { err := some e, vp := vp1, ap := ap1, updateDesiredNumber := true,
                effects := [Effect.policyStatusWrite, Effect.apStatusWrite] ++ apmEffects ++
                  [Effect.resetCh statusKey, Effect.apSpecWrite] }
            | none =>
              { err := none, vp := vp1, ap := { ap1 with spec := newApSpec },
                updateDesiredNumber := true,
                effects := [Effect.policyStatusWrite, Effect.apStatusWrite] ++ apmEffects ++
                  [Effect.resetCh statusKey, Effect.apSpecWrite] }
        else
          { err := none, vp := vp1, ap := oldAp, updateDesiredNumber := true,
            effects := [Effect.policyStatusWrite, Effect.updateStatusCh statusKey] }

/-- Environment of one run of `handleAddVarmorPolicy`: controller flags,
the clock, the store's response to the forbidden status write (logged and
discarded by the code), the outcome of the external `NewArmorProfile`
call, and the store's responses to the remaining writes. -/
structure AddEnv where
  now : Nat
  enableDefenseInDepth : Bool
  restartExistWorkloads : Bool
  ignoreStatusErr : Option String
  newArmorProfile : Except String ArmorProfile
  genFailStatusErr : Option String
  createdStatusErr : Option String
  apCreateErr : Option String

/-- Result of one run of `handleAddVarmorPolicy`. -/
structure AddResult where
  err : Option String
  vp : VarmorPolicy
  updateDesiredNumber : Bool
  effects : List Effect
deriving DecidableEq

/-- Profile Synchronizer create path `handleAddVarmorPolicy`
(lines 314-371): consult the create gate (whose rejections return nil —
even the store outcome of the forbidden write, `env.ignoreStatusErr`, is
only logged); on generation failure write an `Error`/`Created` condition
and return that write's outcome; otherwise write `Pending`/`Created`/true,
optionally reset the model status, create the profile, and optionally
trigger the workload restart. -/
def handleAddVarmorPolicy (vp : VarmorPolicy) (env : AddEnv) : AddResult :=
  let ia := ignoreAdd vp env.enableDefenseInDepth env.now
  if ia.ignore then
    { err := none, vp := ia.vp, updateDesiredNumber := false,
      effects := if ia.statusWrites = 1 then [Effect.policyStatusWrite] else [] }
  else
    match env.newArmorProfile with
    | Except.error msg =>
      let vp1 := updateVarmorPolicyStatusObj vp "" true VarmorPolicyPhase.Error
        VarmorPolicyConditionType.Created ConditionStatus.ConditionFalse "Error" msg env.now
      { err := env.genFailStatusErr, vp := vp1, updateDesiredNumber := false,
        effects := [Effect.policyStatusWrite] }
    | Except.ok ap =>
      let vp1 := updateVarmorPolicyStatusObj vp ap.spec.profile.name true
        VarmorPolicyPhase.Pending VarmorPolicyConditionType.Created
        ConditionStatus.ConditionTrue "" "" env.now
      match env.createdStatusErr with
      | some e =>
        { err := some e, vp := vp1, updateDesiredNumber := false,
          effects := [Effect.policyStatusWrite] }
      | none =>
        let apmEffects :=
          if vp.spec.policy.mode = VarmorPolicyMode.DefenseInDepth then
            [Effect.apmStatusReset]
          else
            []
        match env.apCreateErr with
        | some e =>
          { err := some e, vp := vp1, updateDesiredNumber := true,
            effects := [Effect.policyStatusWrite] ++ apmEffects ++ [Effect.apCreate] }
        | none =>
          let restartEffects :=
            if env.restartExistWorkloads then [Effect.restartWorkloads] else []
          { err := none, vp := vp1, updateDesiredNumber := true,
            effects := [Effect.policyStatusWrite] ++ apmEffects ++ [Effect.apCreate] ++
              restartEffects }

/-- Per-key retry state of the rate-limited work queue: the number of
rate-limited requeues since the key was last forgotten
(`queue.NumRequeues`). -/
structure QueueState where
  numRequeues : Nat
deriving DecidableEq

/-- Outcome of one `handleErr` classification: the queue state afterwards
and which of requeue / report / forget happened. -/
structure HandleErrResult where
  queue : QueueState
  requeued : Bool
  reported : Bool
  forgotten : Bool
deriving DecidableEq

/-- Worker-loop error classification `handleErr` (lines 562-578): success
forgets the key; a failure below the `maxRetries` ceiling requeues it
rate-limited (incrementing the per-key counter); a failure at the ceiling
reports the error to the process-wide handler, forgets the key and drops
it. -/
def handleErr (hasErr : Bool) (q : QueueState) : HandleErrResult :=
  if ¬hasErr then
    { queue := { numRequeues := 0 }, requeued := false, reported := false, forgotten := true }
  else if q.numRequeues < maxRetries then
    { queue := { numRequeues := q.numRequeues + 1 }, requeued := true,
      reported := false, forgotten := false }
  else
    { queue := { numRequeues := 0 }, requeued := false, reported := true, forgotten := true }

/-- Trace of `handleErr` outcomes over `n` consecutive sync failures of one
key, starting from queue state `q`. -/
def failuresTrace : Nat → QueueState → List HandleErrResult
  | 0, _ => []
  | Nat.succ n, q =>
    let r := handleErr true q
    r :: failuresTrace n r.queue

/-! Helper lemmas about the status reporter. -/

theorem setUpdatedCondition_found (status : ConditionStatus) (now : Nat)
    (reason message : String) (conds : List VarmorPolicyCondition)
    (h : ∃ c ∈ conds, c.type = VarmorPolicyConditionType.Updated) :
    ∃ pre c post, conds = pre ++ c :: post ∧
      (∀ d ∈ pre, ¬(d.type = VarmorPolicyConditionType.Updated)) ∧
      c.type = VarmorPolicyConditionType.Updated ∧
      setUpdatedCondition conds status now reason message =
        (pre ++
          { c with
            status := status,
            lastTransitionTime := now,
            reason := reason,
            message := message } :: post, true) := by
  induction conds with
  | nil => simp at h
  | cons hd tl ih =>
    by_cases hhd : hd.type = VarmorPolicyConditionType.Updated
    · exact ⟨[], hd, tl, rfl, by simp, hhd, by simp [setUpdatedCondition, hhd]⟩
    · have htl : ∃ c ∈ tl, c.type = VarmorPolicyConditionType.Updated := by
        obtain ⟨c, hc, hct⟩ := h
        rcases List.mem_cons.mp hc with hceq | hc'
        · exact absurd (hceq ▸ hct) hhd
        · exact ⟨c, hc', hct⟩
      obtain ⟨pre, c, post, e1, e2, e3, e4⟩ := ih htl
      refine ⟨hd :: pre, c, post, by simp [e1], ?_, e3, ?_⟩
      · intro d hd'
        rcases List.mem_cons.mp hd' with hdeq | hd''
        · exact hdeq ▸ hhd
        · exact e2 d hd''
      · simp [setUpdatedCondition, hhd, e4]

theorem setUpdatedCondition_not_found (status : ConditionStatus) (now : Nat)
    (reason message : String) (conds : List VarmorPolicyCondition)
    (h : ∀ c ∈ conds, ¬(c.type = VarmorPolicyConditionType.Updated)) :
    setUpdatedCondition conds status now reason message = (conds, false) := by
  induction conds with
  | nil => rfl
  | cons hd tl ih =>
    have hhd := h hd (List.mem_cons_self hd tl)
    have htl : ∀ c ∈ tl, ¬(c.type = VarmorPolicyConditionType.Updated) :=
      fun c hc => h c (List.mem_cons_of_mem hd hc)
    simp [setUpdatedCondition, hhd, ih htl]

theorem upsertCondition_append (conds : List VarmorPolicyCondition)
    (condType : VarmorPolicyConditionType) (status : ConditionStatus)
    (now : Nat) (reason message : String)
    (h : ¬(condType = VarmorPolicyConditionType.Updated)) :
    upsertCondition conds condType status now reason message =
      conds ++ [⟨condType, status, now, reason, message⟩] := by
  simp [upsertCondition, h]

theorem upsertCondition_updated_mem (conds : List VarmorPolicyCondition)
    (status : ConditionStatus) (now : Nat) (reason message : String) :
    ∃ c ∈ upsertCondition conds VarmorPolicyConditionType.Updated status now reason message,
      c.type = VarmorPolicyConditionType.Updated ∧ c.status = status ∧
      c.reason = reason ∧ c.message = message := by
  by_cases hex : ∃ c ∈ conds, c.type = VarmorPolicyConditionType.Updated
  · obtain ⟨pre, c, post, _, _, e3, e4⟩ :=
      setUpdatedCondition_found status now reason message conds hex
    refine ⟨{ c with
              status := status,
              lastTransitionTime := now,
              reason := reason,
              message := message }, ?_, by simp [e3], by simp, by simp, by simp⟩
    simp [upsertCondition, e4]
  · push_neg at hex
    have hnf := setUpdatedCondition_not_found status now reason message conds
      (fun c hc => hex c hc)
    refine ⟨⟨VarmorPolicyConditionType.Updated, status, now, reason, message⟩, ?_,
      rfl, rfl, rfl, rfl⟩
    simp [upsertCondition, hnf]

theorem updateVarmorPolicyStatusObj_conditions (vp : VarmorPolicy) (profileName : String)
    (resetReady : Bool) (phase : VarmorPolicyPhase) (condType : VarmorPolicyConditionType)
    (status : ConditionStatus) (reason message : String) (now : Nat) :
    (updateVarmorPolicyStatusObj vp profileName resetReady phase condType status
        reason message now).status.conditions =
      upsertCondition vp.status.conditions condType status now reason message := by
  simp only [updateVarmorPolicyStatusObj]
  split_ifs <;> rfl

theorem updateVarmorPolicyStatusObj_ready_reset (vp : VarmorPolicy) (profileName : String)
    (phase : VarmorPolicyPhase) (condType : VarmorPolicyConditionType)
    (status : ConditionStatus) (reason message : String) (now : Nat) :
    (updateVarmorPolicyStatusObj vp profileName true phase condType status
        reason message now).status.ready = false := by
  simp only [updateVarmorPolicyStatusObj]
  split_ifs <;> rfl

theorem updateVarmorPolicyStatusObj_ready_keep (vp : VarmorPolicy) (profileName : String)
    (phase : VarmorPolicyPhase) (condType : VarmorPolicyConditionType)
    (status : ConditionStatus) (reason message : String) (now : Nat) :
    (updateVarmorPolicyStatusObj vp profileName false phase condType status
        reason message now).status.ready = vp.status.ready := by
  simp only [updateVarmorPolicyStatusObj]
  split_ifs <;> simp_all

theorem updateVarmorPolicyStatusObj_phase (vp : VarmorPolicy) (profileName : String)
    (resetReady : Bool) (phase : VarmorPolicyPhase) (condType : VarmorPolicyConditionType)
    (status : ConditionStatus) (reason message : String) (now : Nat)
    (h : ¬(phase = VarmorPolicyPhase.Unchanged)) :
    (updateVarmorPolicyStatusObj vp profileName resetReady phase condType status
        reason message now).status.phase = phase := by
  simp only [updateVarmorPolicyStatusObj]
  split_ifs with h1 h2 h3 <;> simp_all

/-! Branch characterizations of the update validation gate. -/

theorem ignoreUpdate_target_diff (newVp : VarmorPolicy) (oldAp : ArmorProfile)
    (now : Nat) (se : Option String)
    (ht : ¬(newVp.spec.target = oldAp.spec.target)) :
    ignoreUpdate newVp oldAp now se =
      { ignore := true, err := se,
        vp := updateVarmorPolicyStatusObj newVp "" true VarmorPolicyPhase.Unchanged
          VarmorPolicyConditionType.Updated ConditionStatus.ConditionFalse "Forbidden"
          "Modify the target of VarmorPolicy is not allowed. You need to recreate the VarmorPolicy object."
          now,
        statusWrites := 1 } := by
  unfold ignoreUpdate
  rw [if_pos ht]
  rfl

theorem ignoreUpdate_switch_into (newVp : VarmorPolicy) (oldAp : ArmorProfile)
    (now : Nat) (se : Option String)
    (ht : newVp.spec.target = oldAp.spec.target)
    (hm : newVp.spec.policy.mode = VarmorPolicyMode.DefenseInDepth)
    (hz : oldAp.spec.behaviorModeling.modelingDuration = 0) :
    ignoreUpdate newVp oldAp now se =
      { ignore := true, err := se,
        vp := updateVarmorPolicyStatusObj newVp "" true VarmorPolicyPhase.Unchanged
          VarmorPolicyConditionType.Updated ConditionStatus.ConditionFalse "Forbidden"
          "Switch the mode from others to DefenseInDepth is not allowed. You need to recreate the VarmorPolicy object."
          now,
        statusWrites := 1 } := by
  unfold ignoreUpdate
  rw [if_neg (not_not_intro ht), if_pos ⟨hm, hz⟩]
  rfl

theorem ignoreUpdate_switch_out (newVp : VarmorPolicy) (oldAp : ArmorProfile)
    (now : Nat) (se : Option String)
    (ht : newVp.spec.target = oldAp.spec.target)
    (hnm : ¬(newVp.spec.policy.mode = VarmorPolicyMode.DefenseInDepth))
    (hnz : ¬(oldAp.spec.behaviorModeling.modelingDuration = 0)) :
    ignoreUpdate newVp oldAp now se =
      { ignore := true, err := se,
        vp := updateVarmorPolicyStatusObj newVp "" true VarmorPolicyPhase.Unchanged
          VarmorPolicyConditionType.Updated ConditionStatus.ConditionFalse "Forbidden"
          "Switch the mode from DefenseInDepth to others is not allowed. You need to recreate the VarmorPolicy object."
          now,
        statusWrites := 1 } := by
  unfold ignoreUpdate
  rw [if_neg (not_not_intro ht), if_neg (fun h => hnm h.1), if_pos ⟨hnm, hnz⟩]
  rfl

theorem ignoreUpdate_completed_lock (newVp : VarmorPolicy) (oldAp : ArmorProfile)
    (now : Nat) (se : Option String)
    (ht : newVp.spec.target = oldAp.spec.target)
    (hm : newVp.spec.policy.mode = VarmorPolicyMode.DefenseInDepth)
    (hnz : ¬(oldAp.spec.behaviorModeling.modelingDuration = 0))
    (hph : newVp.status.phase = VarmorPolicyPhase.Completed ∨
           newVp.status.phase = VarmorPolicyPhase.Protecting) :
    ignoreUpdate newVp oldAp now se =
      { ignore := true, err := se,
        vp := updateVarmorPolicyStatusObj newVp "" false VarmorPolicyPhase.Unchanged
          VarmorPolicyConditionType.Updated ConditionStatus.ConditionFalse "Forbidden"
          "Modify the VarmorPolicy that run as DefenseInDepth mode and already completed is not allowed. You need to recreate the VarmorPolicy object."
          now,
        statusWrites := 1 } := by
  unfold ignoreUpdate
  rw [if_neg (not_not_intro ht), if_neg (fun h => hnz h.2), if_neg (fun h => h.1 hm),
    if_pos ⟨hm, hph⟩]
  rfl

theorem ignoreUpdate_modeling_noop (newVp : VarmorPolicy) (oldAp : ArmorProfile)
    (now : Nat) (se : Option String)
    (ht : newVp.spec.target = oldAp.spec.target)
    (hm : newVp.spec.policy.mode = VarmorPolicyMode.DefenseInDepth)
    (hp : newVp.status.phase = VarmorPolicyPhase.Modeling)
    (hd : newVp.spec.policy.defenseInDepth.modelingDuration =
          oldAp.spec.behaviorModeling.modelingDuration)
    (hnz : ¬(oldAp.spec.behaviorModeling.modelingDuration = 0)) :
    ignoreUpdate newVp oldAp now se =
      { ignore := true, err := none, vp := newVp, statusWrites := 0 } := by
  unfold ignoreUpdate
  rw [if_neg (not_not_intro ht), if_neg (fun h => hnz h.2), if_neg (fun h => h.1 hm),
    if_neg, if_pos ⟨hm, hp, hd⟩]
  intro h
  rcases h.2 with hc | hc
  · rw [hp] at hc
    exact VarmorPolicyPhase.noConfusion hc
  · rw [hp] at hc
    exact VarmorPolicyPhase.noConfusion hc

theorem ignoreUpdate_enforcer_switch (newVp : VarmorPolicy) (oldAp : ArmorProfile)
    (now : Nat) (se : Option String)
    (ht : newVp.spec.target = oldAp.spec.target)
    (h2 : ¬(newVp.spec.policy.mode = VarmorPolicyMode.DefenseInDepth ∧
            oldAp.spec.behaviorModeling.modelingDuration = 0))
    (h3 : ¬(¬(newVp.spec.policy.mode = VarmorPolicyMode.DefenseInDepth) ∧
            ¬(oldAp.spec.behaviorModeling.modelingDuration = 0)))
    (h4 : ¬(newVp.spec.policy.mode = VarmorPolicyMode.DefenseInDepth ∧
            (newVp.status.phase = VarmorPolicyPhase.Completed ∨
             newVp.status.phase = VarmorPolicyPhase.Protecting)))
    (h5 : ¬(newVp.spec.policy.mode = VarmorPolicyMode.DefenseInDepth ∧
            newVp.status.phase = VarmorPolicyPhase.Modeling ∧
            newVp.spec.policy.defenseInDepth.modelingDuration =
              oldAp.spec.behaviorModeling.modelingDuration))
    (henf : ¬(newVp.spec.policy.enforcer = oldAp.spec.profile.enforcer)) :
    ignoreUpdate newVp oldAp now se =
      { ignore := true, err := se,
        vp := updateVarmorPolicyStatusObj newVp "" true VarmorPolicyPhase.Unchanged
          VarmorPolicyConditionType.Updated ConditionStatus.ConditionFalse "Forbidden"
          "Switch the enforcer is not allowed. You need to recreate the VarmorPolicy object."
          now,
        statusWrites := 1 } := by
  unfold ignoreUpdate
  rw [if_neg (not_not_intro ht), if_neg h2, if_neg h3, if_neg h4, if_neg h5, if_pos henf]
  rfl

/-! Concrete fixtures for witnesses and counterexamples. -/

def tgtA : Target := ⟨"Deployment", "demo", none⟩

def tgtB : Target := ⟨"StatefulSet", "other", none⟩

/-- Test fixture: a VarmorPolicy in namespace `default` named `demo`. -/
def mkPolicy (rv : String) (tgt : Target) (enforcer : String) (mode : VarmorPolicyMode)
    (dur : Int) (rules : String) (phase : VarmorPolicyPhase) (ready : Bool)
    (conds : List VarmorPolicyCondition) : VarmorPolicy :=
  { ns := "default", name := "demo", resourceVersion := rv,
    spec := { target := tgt,
              policy := { enforcer := enforcer, mode := mode,
                          defenseInDepth := ⟨dur⟩, rules := rules } },
    status := { profileName := "", conditions := conds, ready := ready, phase := phase } }

/-- Test fixture: the ArmorProfile paired with `mkPolicy` fixtures. -/
def mkProfile (tgt : Target) (enforcer : String) (dur : Int) : ArmorProfile :=
  { ns := "default", name := "varmor-default-demo",
    spec := { target := tgt,
              profile := { name := "varmor-default-demo", enforcer := enforcer, content := "c0" },
              behaviorModeling := ⟨dur, "id0"⟩ },
    status := { currentNumberLoaded := 1, conditions := ["loaded"] } }

/-- Test fixture: an update environment in which every store call succeeds
and the generator is never reached. -/
def envOk : UpdateEnv :=
  { now := 1, ignoreStatusErr := none, resetStatusErr := none,
    genProfile := Except.error "unused", genFailStatusErr := none,
    apStatusErr := none, apUpdateErr := none }

/-! Claim C1: Event Router update filtering. -/

def vpC1old : VarmorPolicy :=
  mkPolicy "1" tgtA "AppArmor" VarmorPolicyMode.EnhanceProtect 0 "r1"
    VarmorPolicyPhase.Pending false []

def vpC1new : VarmorPolicy :=
  { vpC1old with
    resourceVersion := "2",
    spec := { vpC1old.spec with policy := { vpC1old.spec.policy with rules := "r2" } },
    status := { vpC1old.status with ready := true } }

/-- C1 counterexample: a notification in which the resource version, the
spec and the status all changed is skipped by the Event Router, although
the claim says a notification where both the spec and the status changed
is enqueued. -/
theorem claim1_counterexample :
    ¬(vpC1new.resourceVersion = vpC1old.resourceVersion) ∧
    ¬(vpC1new.spec = vpC1old.spec) ∧
    ¬(vpC1new.status = vpC1old.status) ∧
    updateVarmorPolicy vpC1old vpC1new = false := by
  decide

/-- C1 (amended): the Event Router enqueues an update notification exactly
when the resource version changed, the spec changed, and the status is
unchanged; any notification whose status changed — even together with a
spec change — is skipped. -/
theorem claim1_enqueue_iff (oldVp newVp : VarmorPolicy) :
    updateVarmorPolicy oldVp newVp = true ↔
      ¬(newVp.resourceVersion = oldVp.resourceVersion) ∧
      ¬(newVp.spec = oldVp.spec) ∧ newVp.status = oldVp.status := by
  unfold updateVarmorPolicy
  split_ifs with h
  · constructor
    · intro hb
      exact absurd hb (by simp)
    · intro hc
      exfalso
      rcases h with hh | hh | hh
      · exact hc.1 hh
      · exact hc.2.1 hh
      · exact hh hc.2.2
  · push_neg at h
    exact ⟨fun _ => ⟨h.1, h.2.1, h.2.2⟩, fun _ => rfl⟩

def vpW1new : VarmorPolicy :=
  { vpC1old with
    resourceVersion := "2",
    spec := { vpC1old.spec with policy := { vpC1old.spec.policy with rules := "r2" } } }

/-- C1 witness: a notification with changed resource version, changed spec
and unchanged status is enqueued. -/
theorem claim1_witness : updateVarmorPolicy vpC1old vpW1new = true :=
  (claim1_enqueue_iff vpC1old vpW1new).mpr (by decide)

/-! Claim C2: Forbidden rejections and the error returned by the handlers. -/

theorem ignoreUpdate_err_of_write (newVp : VarmorPolicy) (oldAp : ArmorProfile)
    (now : Nat) (se : Option String)
    (h : (ignoreUpdate newVp oldAp now se).statusWrites = 1) :
    (ignoreUpdate newVp oldAp now se).err = se := by
  unfold ignoreUpdate at h ⊢
  split_ifs at h ⊢ <;> simp_all [updateVarmorPolicyStatus]

def vpC2 : VarmorPolicy :=
  mkPolicy "3" tgtA "AppArmor" VarmorPolicyMode.EnhanceProtect 0 "r1"
    VarmorPolicyPhase.Protecting true []

def apC2 : ArmorProfile := mkProfile tgtB "AppArmor" 0

def envC2 : UpdateEnv := { envOk with ignoreStatusErr := some "update conflict" }

/-- C2 counterexample: an update rejected as Forbidden (target change)
whose Forbidden status-condition write fails makes the sync handler return
the store error — not success — so the key is retried. -/
theorem claim2_counterexample :
    (ignoreUpdate vpC2 apC2 envC2.now envC2.ignoreStatusErr).ignore = true ∧
    ¬((handleUpdateVarmorPolicy vpC2 apC2 envC2).err = none) := by
  decide

/-- C2 (amended): a create rejected by the validation gate always makes the
handler return nil, even when the Forbidden status write fails (its store
outcome is discarded); an update rejected by the gate makes the handler
return exactly the store outcome of the Forbidden status write, so the key
is retried precisely when that write fails. -/
theorem claim2_rejection_return :
    (∀ (vp : VarmorPolicy) (env : AddEnv),
      (ignoreAdd vp env.enableDefenseInDepth env.now).ignore = true →
      (handleAddVarmorPolicy vp env).err = none) ∧
    (∀ (newVp : VarmorPolicy) (oldAp : ArmorProfile) (env : UpdateEnv),
      (ignoreUpdate newVp oldAp env.now env.ignoreStatusErr).ignore = true →
      (ignoreUpdate newVp oldAp env.now env.ignoreStatusErr).statusWrites = 1 →
      (handleUpdateVarmorPolicy newVp oldAp env).err = env.ignoreStatusErr) := by
  constructor
  · intro vp env h
    simp [handleAddVarmorPolicy, h]
  · intro newVp oldAp env h1 h2
    have he := ignoreUpdate_err_of_write newVp oldAp env.now env.ignoreStatusErr h2
    simp [handleUpdateVarmorPolicy, h1, he]

def vpAddBad : VarmorPolicy :=
  mkPolicy "1" ⟨"Job", "demo", none⟩ "AppArmor" VarmorPolicyMode.EnhanceProtect 0 "r"
    VarmorPolicyPhase.Pending false []

def envAdd : AddEnv :=
  { now := 0, enableDefenseInDepth := false, restartExistWorkloads := false,
    ignoreStatusErr := some "boom", newArmorProfile := Except.error "unused",
    genFailStatusErr := none, createdStatusErr := none, apCreateErr := none }

/-- C2 witness: a rejected create returns nil even though its status write
fails, and a rejected update returns the (successful) status-write
outcome. -/
theorem claim2_witness :
    (handleAddVarmorPolicy vpAddBad envAdd).err = none ∧
    (handleUpdateVarmorPolicy vpC2 apC2 envOk).err = envOk.ignoreStatusErr :=
  ⟨claim2_rejection_return.1 vpAddBad envAdd (by decide),
   claim2_rejection_return.2 vpC2 apC2 envOk (by decide) (by decide)⟩

/-! Claim C3: in-place update versus append in the status reporter. -/

def vpC3 : VarmorPolicy :=
  mkPolicy "1" tgtA "AppArmor" VarmorPolicyMode.EnhanceProtect 0 "r"
    VarmorPolicyPhase.Pending true
    [⟨VarmorPolicyConditionType.Created, ConditionStatus.ConditionTrue, 0, "", ""⟩]

/-- C3 counterexample: calling the status reporter with condition type
`Created` while a `Created` condition already exists appends a second
entry instead of updating the existing one in place. -/
theorem claim3_counterexample :
    vpC3.status.conditions.length = 1 ∧
    (∃ c ∈ vpC3.status.conditions, c.type = VarmorPolicyConditionType.Created) ∧
    (updateVarmorPolicyStatusObj vpC3 "" true VarmorPolicyPhase.Error
      VarmorPolicyConditionType.Created ConditionStatus.ConditionFalse "Forbidden" "m"
      3).status.conditions.length = 2 := by
  decide

/-- C3 (amended): only the `Updated` condition type is updated in place —
when the reporter is called with type `Updated` and such a condition
exists, the first `Updated` entry is overwritten in place with order and
all other entries preserved; for every other condition type a new entry is
always appended, even when a condition of that type already exists. -/
theorem claim3_condition_upsert (vp : VarmorPolicy) (profileName : String)
    (resetReady : Bool) (phase : VarmorPolicyPhase)
    (condType : VarmorPolicyConditionType) (status : ConditionStatus)
    (reason message : String) (now : Nat) :
    (¬(condType = VarmorPolicyConditionType.Updated) →
      (updateVarmorPolicyStatusObj vp profileName resetReady phase condType status
          reason message now).status.conditions =
        vp.status.conditions ++ [⟨condType, status, now, reason, message⟩]) ∧
    (condType = VarmorPolicyConditionType.Updated →
      (∃ c ∈ vp.status.conditions, c.type = VarmorPolicyConditionType.Updated) →
      ∃ pre c post, vp.status.conditions = pre ++ c :: post ∧
        (∀ d ∈ pre, ¬(d.type = VarmorPolicyConditionType.Updated)) ∧
        c.type = VarmorPolicyConditionType.Updated ∧
        (updateVarmorPolicyStatusObj vp profileName resetReady phase condType status
            reason message now).status.conditions =
          pre ++
            { c with
              status := status,
              lastTransitionTime := now,
              reason := reason,
              message := message } :: post) := by
  constructor
  · intro h
    rw [updateVarmorPolicyStatusObj_conditions,
      upsertCondition_append vp.status.conditions condType status now reason message h]
  · intro hct hex
    obtain ⟨pre, c, post, e1, e2, e3, e4⟩ :=
      setUpdatedCondition_found status now reason message vp.status.conditions hex
    refine ⟨pre, c, post, e1, e2, e3, ?_⟩
    rw [updateVarmorPolicyStatusObj_conditions, hct]
    simp [upsertCondition, e4]

/-- C3 witness: with condition type `Ready` the reporter appends a new
condition entry. -/
theorem claim3_witness :
    (updateVarmorPolicyStatusObj vpC3 "" false VarmorPolicyPhase.Unchanged
        VarmorPolicyConditionType.Ready ConditionStatus.ConditionTrue "r" "m"
        4).status.conditions =
      vpC3.status.conditions ++
        [⟨VarmorPolicyConditionType.Ready, ConditionStatus.ConditionTrue, 4, "r", "m"⟩] :=
  (claim3_condition_upsert vpC3 "" false VarmorPolicyPhase.Unchanged
    VarmorPolicyConditionType.Ready ConditionStatus.ConditionTrue "r" "m" 4).1 (by decide)

/-! Claim C4: gate evaluation order — the no-op skip shadows the enforcer
check. -/

def vpX4 : VarmorPolicy :=
  mkPolicy "4" tgtA "BPF" VarmorPolicyMode.DefenseInDepth 0 "r"
    VarmorPolicyPhase.Modeling true []

def apX4 : ArmorProfile := mkProfile tgtA "AppArmor" 0

/-- C4 counterexample: a behavior-modeling policy in phase `Modeling` with
unchanged modeling duration (zero on both sides) and a changed enforcer is
not skipped silently — the switch-into-behavior-modeling check fires first
and writes a Forbidden condition. -/
theorem claim4_counterexample :
    vpX4.spec.policy.mode = VarmorPolicyMode.DefenseInDepth ∧
    vpX4.status.phase = VarmorPolicyPhase.Modeling ∧
    vpX4.spec.policy.defenseInDepth.modelingDuration =
      apX4.spec.behaviorModeling.modelingDuration ∧
    ¬(vpX4.spec.policy.enforcer = apX4.spec.profile.enforcer) ∧
    (ignoreUpdate vpX4 apX4 2 none).statusWrites = 1 ∧
    ¬((ignoreUpdate vpX4 apX4 2 none).vp = vpX4) := by
  decide

/-- C4 (amended): the gate evaluates its checks in the fixed order
target-change, switch-into, switch-out, completed/protecting lock,
no-op-duration skip, enforcer mismatch, first match winning; hence for
every update with unchanged target, behavior-modeling mode, phase
`Modeling` and unchanged NONZERO modeling duration — even with a changed
enforcer — the gate returns the silent skip: no rejection, no condition
write, policy untouched. -/
theorem claim4_gate_order_silent_skip (newVp : VarmorPolicy) (oldAp : ArmorProfile)
    (now : Nat) (se : Option String)
    (ht : newVp.spec.target = oldAp.spec.target)
    (hm : newVp.spec.policy.mode = VarmorPolicyMode.DefenseInDepth)
    (hp : newVp.status.phase = VarmorPolicyPhase.Modeling)
    (hd : newVp.spec.policy.defenseInDepth.modelingDuration =
          oldAp.spec.behaviorModeling.modelingDuration)
    (hnz : ¬(oldAp.spec.behaviorModeling.modelingDuration = 0)) :
    ignoreUpdate newVp oldAp now se =
      { ignore := true, err := none, vp := newVp, statusWrites := 0 } :=
  ignoreUpdate_modeling_noop newVp oldAp now se ht hm hp hd hnz

def vpW4 : VarmorPolicy :=
  mkPolicy "4" tgtA "BPF" VarmorPolicyMode.DefenseInDepth 30 "r"
    VarmorPolicyPhase.Modeling true []

def apW4 : ArmorProfile := mkProfile tgtA "AppArmor" 30

/-- C4 witness: at a concrete modeling policy with nonzero unchanged
duration and changed enforcer, the gate skips silently. -/
theorem claim4_witness :
    ignoreUpdate vpW4 apW4 2 none =
      { ignore := true, err := none, vp := vpW4, statusWrites := 0 } :=
  claim4_gate_order_silent_skip vpW4 apW4 2 none (by decide) (by decide) (by decide)
    (by decide) (by decide)

/-! Claim C5: target immutability. -/

/-- C5: an update whose target differs from the stored profile's target is
rejected before any profile mutation — the stored profile is unchanged, no
profile store write is attempted, and the policy receives an
`Updated`/`ConditionFalse`/"Forbidden" condition. -/
theorem claim5_target_immutable (newVp : VarmorPolicy) (oldAp : ArmorProfile)
    (env : UpdateEnv)
    (ht : ¬(newVp.spec.target = oldAp.spec.target)) :
    (handleUpdateVarmorPolicy newVp oldAp env).ap = oldAp ∧
    ¬(Effect.apSpecWrite ∈ (handleUpdateVarmorPolicy newVp oldAp env).effects) ∧
    ¬(Effect.apStatusWrite ∈ (handleUpdateVarmorPolicy newVp oldAp env).effects) ∧
    ∃ c ∈ (handleUpdateVarmorPolicy newVp oldAp env).vp.status.conditions,
      c.type = VarmorPolicyConditionType.Updated ∧
      c.status = ConditionStatus.ConditionFalse ∧ c.reason = "Forbidden" := by
  have hig := ignoreUpdate_target_diff newVp oldAp env.now env.ignoreStatusErr ht
  have hr : handleUpdateVarmorPolicy newVp oldAp env =
      { err := env.ignoreStatusErr,
        vp := updateVarmorPolicyStatusObj newVp "" true VarmorPolicyPhase.Unchanged
          VarmorPolicyConditionType.Updated ConditionStatus.ConditionFalse "Forbidden"
          "Modify the target of VarmorPolicy is not allowed. You need to recreate the VarmorPolicy object."
          env.now,
        ap := oldAp, updateDesiredNumber := false,
        effects := [Effect.policyStatusWrite] } := by
    unfold handleUpdateVarmorPolicy
    rw [hig]
    rfl
  rw [hr]
  refine ⟨rfl, by simp, by simp, ?_⟩
  rw [updateVarmorPolicyStatusObj_conditions]
  obtain ⟨c, hc, h1, h2, h3, _⟩ :=
    upsertCondition_updated_mem newVp.status.conditions ConditionStatus.ConditionFalse
      env.now "Forbidden"
      "Modify the target of VarmorPolicy is not allowed. You need to recreate the VarmorPolicy object."
  exact ⟨c, hc, h1, h2, h3⟩

def vpW5 : VarmorPolicy :=
  mkPolicy "5" tgtB "AppArmor" VarmorPolicyMode.EnhanceProtect 0 "r"
    VarmorPolicyPhase.Protecting true []

def apW5 : ArmorProfile := mkProfile tgtA "AppArmor" 0

/-- C5 witness: a concrete target-changing update leaves the stored
profile untouched and records the Forbidden condition. -/
theorem claim5_witness :
    (handleUpdateVarmorPolicy vpW5 apW5 envOk).ap = apW5 ∧
    ¬(Effect.apSpecWrite ∈ (handleUpdateVarmorPolicy vpW5 apW5 envOk).effects) ∧
    ¬(Effect.apStatusWrite ∈ (handleUpdateVarmorPolicy vpW5 apW5 envOk).effects) ∧
    ∃ c ∈ (handleUpdateVarmorPolicy vpW5 apW5 envOk).vp.status.conditions,
      c.type = VarmorPolicyConditionType.Updated ∧
      c.status = ConditionStatus.ConditionFalse ∧ c.reason = "Forbidden" :=
  claim5_target_immutable vpW5 apW5 envOk (by decide)

/-! Claim C6: spec-equality short-circuit of the update handler. -/

/-- C6: a validated update whose recompiled profile spec is deep-equal to
the stored one (with the status reset succeeding) performs no write to the
profile object, triggers no workload restart, and sends exactly one
status-refresh request for the key. -/
theorem claim6_equal_spec_short_circuit (newVp : VarmorPolicy) (oldAp : ArmorProfile)
    (env : UpdateEnv) (p : Profile)
    (hig : (ignoreUpdate newVp oldAp env.now env.ignoreStatusErr).ignore = false)
    (hgen : env.genProfile = Except.ok p)
    (hreset : env.resetStatusErr = none)
    (heq : newApSpecOf newVp oldAp p = oldAp.spec) :
    (handleUpdateVarmorPolicy newVp oldAp env).err = none ∧
    (handleUpdateVarmorPolicy newVp oldAp env).ap = oldAp ∧
    ¬(Effect.restartWorkloads ∈ (handleUpdateVarmorPolicy newVp oldAp env).effects) ∧
    (handleUpdateVarmorPolicy newVp oldAp env).effects =
      [Effect.policyStatusWrite, Effect.updateStatusCh (newVp.ns ++ "/" ++ newVp.name)] := by
  have hr : handleUpdateVarmorPolicy newVp oldAp env =
      { err := none,
        vp := updateVarmorPolicyStatusObj newVp "" true VarmorPolicyPhase.Pending
          VarmorPolicyConditionType.Updated ConditionStatus.ConditionTrue "" "" env.now,
        ap := oldAp, updateDesiredNumber := true,
        effects := [Effect.policyStatusWrite,
          Effect.updateStatusCh (newVp.ns ++ "/" ++ newVp.name)] } := by
    simp [handleUpdateVarmorPolicy, hig, hreset, hgen, heq]
  rw [hr]
  exact ⟨rfl, rfl, by simp, rfl⟩

def profW6 : Profile := ⟨"varmor-default-demo", "AppArmor", "c0"⟩

def vpW6 : VarmorPolicy :=
  mkPolicy "6" tgtA "AppArmor" VarmorPolicyMode.EnhanceProtect 0 "r"
    VarmorPolicyPhase.Protecting true []

def apW6 : ArmorProfile := mkProfile tgtA "AppArmor" 0

def envW6 : UpdateEnv := { envOk with genProfile := Except.ok profW6 }

/-- C6 witness: a concrete validated update recompiling to the identical
profile spec takes the status-only path. -/
theorem claim6_witness :
    (handleUpdateVarmorPolicy vpW6 apW6 envW6).err = none ∧
    (handleUpdateVarmorPolicy vpW6 apW6 envW6).ap = apW6 ∧
    ¬(Effect.restartWorkloads ∈ (handleUpdateVarmorPolicy vpW6 apW6 envW6).effects) ∧
    (handleUpdateVarmorPolicy vpW6 apW6 envW6).effects =
      [Effect.policyStatusWrite, Effect.updateStatusCh (vpW6.ns ++ "/" ++ vpW6.name)] :=
  claim6_equal_spec_short_circuit vpW6 apW6 envW6 profW6 (by decide) rfl rfl (by decide)

/-! Claim C7: no-op duration refresh. -/

def vpX7 : VarmorPolicy :=
  mkPolicy "7" tgtA "AppArmor" VarmorPolicyMode.DefenseInDepth 0 "r"
    VarmorPolicyPhase.Modeling true []

def apX7 : ArmorProfile := mkProfile tgtA "AppArmor" 0

/-- C7 counterexample: a behavior-modeling policy in phase `Modeling` whose
requested duration equals the profile's recorded duration (both zero) is
not a no-op on re-sync — the gate's switch-into check fires, performing a
policy status write. -/
theorem claim7_counterexample :
    vpX7.spec.policy.mode = VarmorPolicyMode.DefenseInDepth ∧
    vpX7.status.phase = VarmorPolicyPhase.Modeling ∧
    vpX7.spec.policy.defenseInDepth.modelingDuration =
      apX7.spec.behaviorModeling.modelingDuration ∧
    (handleUpdateVarmorPolicy vpX7 apX7 envOk).effects = [Effect.policyStatusWrite] ∧
    ¬((handleUpdateVarmorPolicy vpX7 apX7 envOk).vp = vpX7) := by
  decide

/-- C7 (amended): re-syncing a behavior-modeling policy in phase `Modeling`
with unchanged target and unchanged NONZERO modeling duration performs no
status write on the policy, mutates no profile, and returns success. -/
theorem claim7_noop_duration_refresh (newVp : VarmorPolicy) (oldAp : ArmorProfile)
    (env : UpdateEnv)
    (ht : newVp.spec.target = oldAp.spec.target)
    (hm : newVp.spec.policy.mode = VarmorPolicyMode.DefenseInDepth)
    (hp : newVp.status.phase = VarmorPolicyPhase.Modeling)
    (hd : newVp.spec.policy.defenseInDepth.modelingDuration =
          oldAp.spec.behaviorModeling.modelingDuration)
    (hnz : ¬(oldAp.spec.behaviorModeling.modelingDuration = 0)) :
    handleUpdateVarmorPolicy newVp oldAp env =
      { err := none, vp := newVp, ap := oldAp, updateDesiredNumber := false,
        effects := [] } := by
  have hig := ignoreUpdate_modeling_noop newVp oldAp env.now env.ignoreStatusErr ht hm hp hd hnz
  simp [handleUpdateVarmorPolicy, hig]

def vpW7 : VarmorPolicy :=
  mkPolicy "7" tgtA "AppArmor" VarmorPolicyMode.DefenseInDepth 30 "r"
    VarmorPolicyPhase.Modeling true []

def apW7 : ArmorProfile := mkProfile tgtA "AppArmor" 30

/-- C7 witness: a concrete no-op duration refresh leaves everything
untouched and succeeds. -/
theorem claim7_witness :
    handleUpdateVarmorPolicy vpW7 apW7 envOk =
      { err := none, vp := vpW7, ap := apW7, updateDesiredNumber := false,
        effects := [] } :=
  claim7_noop_duration_refresh vpW7 apW7 envOk (by decide) (by decide) (by decide)
    (by decide) (by decide)

/-! Claim C8: retry ceiling of the worker loop. -/

/-- C8: with the retry ceiling `maxRetries = 5`, six consecutive sync
failures for one key produce exactly five rate-limited requeues (at retry
counts 0 through 4) and, on the sixth failure, one report to the
process-wide error handler together with a forget — the key is dropped
without requeuing. -/
theorem claim8_retry_ceiling :
    maxRetries = 5 ∧
    failuresTrace 6 ⟨0⟩ =
      [⟨⟨1⟩, true, false, false⟩, ⟨⟨2⟩, true, false, false⟩, ⟨⟨3⟩, true, false, false⟩,
       ⟨⟨4⟩, true, false, false⟩, ⟨⟨5⟩, true, false, false⟩, ⟨⟨0⟩, false, true, true⟩] ∧
    List.countP (fun r => r.requeued) (failuresTrace 6 ⟨0⟩) = 5 ∧
    List.countP (fun r => r.reported) (failuresTrace 6 ⟨0⟩) = 1 := by
  decide

/-! Claim C9: which gate rejection preserves the ready flag. -/

/-- C9: among the update-gate rejections only the completed/protecting
lock preserves the policy's `ready` flag; the target-change, switch-into,
switch-out and enforcer-switch rejections all reset `ready` to false. -/
theorem claim9_ready_reset_asymmetry (newVp : VarmorPolicy) (oldAp : ArmorProfile)
    (now : Nat) (se : Option String) :
    (¬(newVp.spec.target = oldAp.spec.target) →
      (ignoreUpdate newVp oldAp now se).vp.status.ready = false) ∧
    (newVp.spec.target = oldAp.spec.target →
      newVp.spec.policy.mode = VarmorPolicyMode.DefenseInDepth →
      oldAp.spec.behaviorModeling.modelingDuration = 0 →
      (ignoreUpdate newVp oldAp now se).vp.status.ready = false) ∧
    (newVp.spec.target = oldAp.spec.target →
      ¬(newVp.spec.policy.mode = VarmorPolicyMode.DefenseInDepth) →
      ¬(oldAp.spec.behaviorModeling.modelingDuration = 0) →
      (ignoreUpdate newVp oldAp now se).vp.status.ready = false) ∧
    (newVp.spec.target = oldAp.spec.target →
      newVp.spec.policy.mode = VarmorPolicyMode.DefenseInDepth →
      ¬(oldAp.spec.behaviorModeling.modelingDuration = 0) →
      (newVp.status.phase = VarmorPolicyPhase.Completed ∨
       newVp.status.phase = VarmorPolicyPhase.Protecting) →
      (ignoreUpdate newVp oldAp now se).vp.status.ready = newVp.status.ready) ∧
    (newVp.spec.target = oldAp.spec.target →
      ¬(newVp.spec.policy.mode = VarmorPolicyMode.DefenseInDepth ∧
        oldAp.spec.behaviorModeling.modelingDuration = 0) →
      ¬(¬(newVp.spec.policy.mode = VarmorPolicyMode.DefenseInDepth) ∧
        ¬(oldAp.spec.behaviorModeling.modelingDuration = 0)) →
      ¬(newVp.spec.policy.mode = VarmorPolicyMode.DefenseInDepth ∧
        (newVp.status.phase = VarmorPolicyPhase.Completed ∨
         newVp.status.phase = VarmorPolicyPhase.Protecting)) →
      ¬(newVp.spec.policy.mode = VarmorPolicyMode.DefenseInDepth ∧
        newVp.status.phase = VarmorPolicyPhase.Modeling ∧
        newVp.spec.policy.defenseInDepth.modelingDuration =
          oldAp.spec.behaviorModeling.modelingDuration) →
      ¬(newVp.spec.policy.enforcer = oldAp.spec.profile.enforcer) →
      (ignoreUpdate newVp oldAp now se).vp.status.ready = false) := by
  refine ⟨?_, ?_, ?_, ?_, ?_⟩
  · intro ht
    rw [ignoreUpdate_target_diff newVp oldAp now se ht]
    exact updateVarmorPolicyStatusObj_ready_reset _ _ _ _ _ _ _ _
  · intro ht hm hz
    rw [ignoreUpdate_switch_into newVp oldAp now se ht hm hz]
    exact updateVarmorPolicyStatusObj_ready_reset _ _ _ _ _ _ _ _
  · intro ht hnm hnz
    rw [ignoreUpdate_switch_out newVp oldAp now se ht hnm hnz]
    exact updateVarmorPolicyStatusObj_ready_reset _ _ _ _ _ _ _ _
  · intro ht hm hnz hph
    rw [ignoreUpdate_completed_lock newVp oldAp now se ht hm hnz hph]
    exact updateVarmorPolicyStatusObj_ready_keep _ _ _ _ _ _ _ _
  · intro ht h2 h3 h4 h5 henf
    rw [ignoreUpdate_enforcer_switch newVp oldAp now se ht h2 h3 h4 h5 henf]
    exact updateVarmorPolicyStatusObj_ready_reset _ _ _ _ _ _ _ _

def vpW9 : VarmorPolicy :=
  mkPolicy "9" tgtA "AppArmor" VarmorPolicyMode.DefenseInDepth 30 "r"
    VarmorPolicyPhase.Completed true []

def apW9 : ArmorProfile := mkProfile tgtA "AppArmor" 30

/-- C9 witness: the completed/protecting-lock rejection of a concrete
ready policy leaves its ready flag intact. -/
theorem claim9_witness :
    (ignoreUpdate vpW9 apW9 1 none).vp.status.ready = vpW9.status.ready :=
  (claim9_ready_reset_asymmetry vpW9 apW9 1 none).2.2.2.1 (by decide) (by decide)
    (by decide) (Or.inl (by decide))

/-! Claim C10: generation failure during an update. -/

/-- C10: when recompilation fails during a validated update (after a
successful status reset), the error is recorded by appending a fresh
`Created`/`ConditionFalse` condition with reason "Error" after the
still-present `Updated` condition, the phase becomes `Error`, the stored
profile is untouched, and the handler returns exactly the outcome of that
second status write (nil on success — no retry). -/
theorem claim10_update_generation_failure (newVp : VarmorPolicy) (oldAp : ArmorProfile)
    (env : UpdateEnv) (msg : String)
    (hig : (ignoreUpdate newVp oldAp env.now env.ignoreStatusErr).ignore = false)
    (hgen : env.genProfile = Except.error msg)
    (hreset : env.resetStatusErr = none) :
    (handleUpdateVarmorPolicy newVp oldAp env).err = env.genFailStatusErr ∧
    (handleUpdateVarmorPolicy newVp oldAp env).ap = oldAp ∧
    (handleUpdateVarmorPolicy newVp oldAp env).vp.status.phase = VarmorPolicyPhase.Error ∧
    ∃ cs, (handleUpdateVarmorPolicy newVp oldAp env).vp.status.conditions =
        cs ++ [⟨VarmorPolicyConditionType.Created, ConditionStatus.ConditionFalse,
          env.now, "Error", msg⟩] ∧
      ∃ c ∈ cs, c.type = VarmorPolicyConditionType.Updated ∧
        c.status = ConditionStatus.ConditionTrue := by
  have hr : handleUpdateVarmorPolicy newVp oldAp env =
      { err := env.genFailStatusErr,
        vp := updateVarmorPolicyStatusObj
          (updateVarmorPolicyStatusObj newVp "" true VarmorPolicyPhase.Pending
            VarmorPolicyConditionType.Updated ConditionStatus.ConditionTrue "" "" env.now)
          "" true VarmorPolicyPhase.Error VarmorPolicyConditionType.Created
          ConditionStatus.ConditionFalse "Error" msg env.now,
        ap := oldAp, updateDesiredNumber := false,
        effects := [Effect.policyStatusWrite, Effect.policyStatusWrite] } := by
    simp [handleUpdateVarmorPolicy, hig, hreset, hgen]
  rw [hr]
  refine ⟨rfl, rfl, ?_, ?_⟩
  · exact updateVarmorPolicyStatusObj_phase _ _ _ _ _ _ _ _ _ (by decide)
  · refine ⟨(updateVarmorPolicyStatusObj newVp "" true VarmorPolicyPhase.Pending
      VarmorPolicyConditionType.Updated ConditionStatus.ConditionTrue "" ""
      env.now).status.conditions, ?_, ?_⟩
    · rw [updateVarmorPolicyStatusObj_conditions]
      exact upsertCondition_append _ _ _ _ _ _ (by decide)
    · rw [updateVarmorPolicyStatusObj_conditions]
      obtain ⟨c, hc, h1, h2, _, _⟩ :=
        upsertCondition_updated_mem newVp.status.conditions ConditionStatus.ConditionTrue
          env.now "" ""
      exact ⟨c, hc, h1, h2⟩

def vpW10 : VarmorPolicy :=
  mkPolicy "10" tgtA "AppArmor" VarmorPolicyMode.EnhanceProtect 0 "r"
    VarmorPolicyPhase.Protecting true []

def apW10 : ArmorProfile := mkProfile tgtA "AppArmor" 0

def envW10 : UpdateEnv := { envOk with genProfile := Except.error "bad rule" }

/-- C10 witness: a concrete update with failing generation and succeeding
status writes appends the `Created`/"Error" condition and returns nil. -/
theorem claim10_witness :
    (handleUpdateVarmorPolicy vpW10 apW10 envW10).err = envW10.genFailStatusErr ∧
    (handleUpdateVarmorPolicy vpW10 apW10 envW10).ap = apW10 ∧
    (handleUpdateVarmorPolicy vpW10 apW10 envW10).vp.status.phase = VarmorPolicyPhase.Error ∧
    ∃ cs, (handleUpdateVarmorPolicy vpW10 apW10 envW10).vp.status.conditions =
        cs ++ [⟨VarmorPolicyConditionType.Created, ConditionStatus.ConditionFalse,
          envW10.now, "Error", "bad rule"⟩] ∧
      ∃ c ∈ cs, c.type = VarmorPolicyConditionType.Updated ∧
        c.status = ConditionStatus.ConditionTrue :=
  claim10_update_generation_failure vpW10 apW10 envW10 "bad rule" (by decide) rfl rfl

end Varmor
